import Mathlib

/-!
Verification of `launch_ros_sandbox/actions/load_docker_nodes.py`.

This file shallowly embeds the pure core of the `LoadDockerNodes` action:
the containerized command builder (including a model of POSIX-mode
`shlex.split`), the log pump `_handle_logs` (including a model of strict
UTF-8 decoding), and the controller state machine formed by `__init__`,
`execute`, `_start_docker_nodes`, `_load_nodes_in_docker` and
`__on_shutdown`.  Docker, asyncio and logging side effects are made
explicit: log calls become counters or lists of messages, the scheduler
becomes an explicit event sequence, and the shutdown lock becomes the
atomicity of each step of that sequence.
-/

namespace LoadDockerNodes

/-! ## A model of `shlex.split` (POSIX mode, whitespace splitting)

CPython `shlex.split(s)` runs the shlex state machine with
`posix=True` and `whitespace_split=True`.  States: skipping whitespace,
inside a word, inside a quote, or just after an escape character.  The
escape state remembers whether it was entered from a word or from inside
a double quote.  Unterminated quotes and a trailing escape raise
`ValueError`, modelled as `none`. -/

/-- Shlex whitespace characters: space, tab, carriage return, newline. -/
def shWhitespace (c : Char) : Bool :=
  c = ' ' || c = '\t' || c = '\r' || c = '\n'

/-- The single-quote character, written via its code point. -/
def squoteChar : Char := Char.ofNat 39

/-- The double-quote character. -/
def dquoteChar : Char := Char.ofNat 34

/-- The backslash escape character. -/
def escChar : Char := Char.ofNat 92

/-- Shlex quote characters: single and double quote. -/
def shQuote (c : Char) : Bool := c = squoteChar || c = dquoteChar

/-- State of the shlex tokenizer.  `escape back` remembers the state to
return to after the escaped character: `none` for a word, `some q` for
the inside of quote `q`. -/
inductive ShMode where
  | space : ShMode
  | word : ShMode
  | quote (q : Char) : ShMode
  | escape (back : Option Char) : ShMode
deriving DecidableEq

/-- The shlex read loop.  `tok` is the token under construction,
`quoted` records whether the current token saw a quote (so that an empty
quoted token is still emitted), `acc` the tokens emitted so far. -/
def shlexRun : List Char → ShMode → List Char → Bool → List String →
    Option (List String)
  | [], .space, _, _, acc => some acc
  | [], .word, tok, quoted, acc =>
    if tok.isEmpty && !quoted then some acc else some (acc ++ [String.mk tok])
  | [], .quote _, _, _, _ => none
  | [], .escape _, _, _, _ => none
  | c :: cs, .space, tok, quoted, acc =>
    if shWhitespace c then
      if !tok.isEmpty || quoted then
        shlexRun cs .space [] false (acc ++ [String.mk tok])
      else
        shlexRun cs .space tok quoted acc
    else if c = escChar then
      shlexRun cs (.escape none) tok quoted acc
    else if shQuote c then
      shlexRun cs (.quote c) tok quoted acc
    else
      shlexRun cs .word (tok ++ [c]) quoted acc
  | c :: cs, .word, tok, quoted, acc =>
    if shWhitespace c then
      if !tok.isEmpty || quoted then
        shlexRun cs .space [] false (acc ++ [String.mk tok])
      else
        shlexRun cs .space tok quoted acc
    else if shQuote c then
      shlexRun cs (.quote c) tok quoted acc
    else if c = escChar then
      shlexRun cs (.escape none) tok quoted acc
    else
      shlexRun cs .word (tok ++ [c]) quoted acc
  | c :: cs, .quote q, tok, _, acc =>
    if c = q then
      shlexRun cs .word tok true acc
    else if c = escChar && q = dquoteChar then
      shlexRun cs (.escape (some q)) tok true acc
    else
      shlexRun cs (.quote q) (tok ++ [c]) true acc
  | c :: cs, .escape back, tok, quoted, acc =>
    match back with
    | none => shlexRun cs .word (tok ++ [c]) quoted acc
    | some q =>
      if c ≠ escChar && c ≠ q then
        shlexRun cs (.quote q) (tok ++ [escChar, c]) quoted acc
      else
        shlexRun cs (.quote q) (tok ++ [c]) quoted acc

/-- Model of `shlex.split` in POSIX mode: tokenize `s`, or `none` when
CPython would raise `ValueError` (unclosed quote or trailing escape). -/
def shlexSplit (s : String) : Option (List String) :=
  shlexRun s.data .space [] false []

/-- Model of `_containerized_cmd` (load_docker_nodes.py line 44):
`shlex.split(entrypoint) + [ros2, run, package, executable]`.
`none` models `shlex.split` raising on a malformed entrypoint. -/
def containerized_cmd (entrypoint package executable : String) :
    Option (List String) :=
  (shlexSplit entrypoint).map (fun toks => toks ++ ["ros2", "run", package, executable])

/-! ## A model of strict UTF-8 decoding

Python `bytes.decode(utf-8)` in strict mode rejects stray continuation
bytes, overlong encodings, surrogate code points and values above
0x10FFFF; `none` models `UnicodeDecodeError`. -/

/-- A UTF-8 continuation byte: 0x80 to 0xBF. -/
def contByte (b : Nat) : Bool := 0x80 ≤ b && b < 0xC0

/-- Byte-at-a-time strict UTF-8 decoder.  `need` counts outstanding
continuation bytes, `code` the partially assembled code point, `minv`
the smallest code point the current sequence length may legally encode
(the overlong check).  A finished code point is also rejected when it
is a surrogate or above 0x10FFFF. -/
def utf8Go : List Nat → Nat → Nat → Nat → Option (List Char)
  | [], need, _, _ => if need = 0 then some [] else none
  | b :: bs, 0, _, _ =>
    if b < 0x80 then (utf8Go bs 0 0 0).map (fun cs => Char.ofNat b :: cs)
    else if b < 0xC0 then none
    else if b < 0xE0 then utf8Go bs 1 (b - 0xC0) 0x80
    else if b < 0xF0 then utf8Go bs 2 (b - 0xE0) 0x800
    else if b < 0xF5 then utf8Go bs 3 (b - 0xF0) 0x10000
    else none
  | b :: bs, need + 1, code, minv =>
    if contByte b then
      if need = 0 then
        if minv ≤ code * 64 + (b - 0x80)
            && !(0xD800 ≤ code * 64 + (b - 0x80) && code * 64 + (b - 0x80) < 0xE000)
            && code * 64 + (b - 0x80) < 0x110000 then
          (utf8Go bs 0 0 0).map (fun cs => Char.ofNat (code * 64 + (b - 0x80)) :: cs)
        else none
      else utf8Go bs need (code * 64 + (b - 0x80)) minv
    else none

/-- Strict UTF-8 decoding of a byte list, `none` on any invalid
sequence, modelling `bytes.decode(utf-8)`. -/
def utf8Decode (bs : List Nat) : Option (List Char) :=
  utf8Go bs 0 0 0

/-! ## The log pump `_handle_logs` (load_docker_nodes.py lines 155-176)

One value yielded by the Docker exec log generator is Python `None`, a
`bytes` chunk, a nested generator, or some other object.  The pump
skips falsy values, fans a nested generator out line by line with no
exception handling, and decodes any other value with a try/except that
turns `UnicodeDecodeError` and `AttributeError` into one `exception`
log naming the runtime type of the chunk. -/

/-- A value yielded by the log generator. -/
inductive LogVal where
  | pynone : LogVal
  | bytes (bs : List Nat) : LogVal
  | gen (inner : List LogVal) : LogVal
  | other : LogVal

/-- Python truth test `not log`: `None` and empty `bytes` are falsy;
generators and the modelled other objects are truthy. -/
def isFalsy : LogVal → Bool
  | .pynone => true
  | .bytes [] => true
  | _ => false

/-- Python runtime type name of a chunk, as interpolated by
`format(type(log))`. -/
def typeName : LogVal → String
  | .pynone => "NoneType"
  | .bytes _ => "bytes"
  | .gen _ => "generator"
  | .other => "object"

/-- Whitespace as stripped by Python `str.strip()` (the ASCII range):
space, tab, newline, carriage return, vertical tab, form feed. -/
def isPySpace (c : Char) : Bool :=
  c = ' ' || c = '\t' || c = '\n' || c = '\r' || c = Char.ofNat 11 || c = Char.ofNat 12

/-- Model of `str.strip()`: drop leading and trailing whitespace. -/
def pyStrip (cs : List Char) : List Char :=
  ((cs.dropWhile isPySpace).reverse.dropWhile isPySpace).reverse

/-- Model of `log.decode(utf-8).strip()`: `some` of the trimmed text
for decodable bytes, `none` when the statement raises
(`UnicodeDecodeError` on bad bytes, `AttributeError` on non-bytes). -/
def decodeTrim : LogVal → Option String
  | .bytes bs => (utf8Decode bs).map (fun cs => String.mk (pyStrip cs))
  | _ => none

/-- The inner loop over a nested generator (line 170): decoded, trimmed
lines until the first element that raises; the Bool records whether an
exception escaped (this loop has no try/except). -/
def pumpNested : List LogVal → List String × Bool
  | [] => ([], false)
  | v :: vs =>
    match decodeTrim v with
    | some line =>
      let r := pumpNested vs
      (line :: r.1, r.2)
    | none => ([], true)

/-- Result of running `_handle_logs` on a stream: the lines forwarded
to `logger.info`, the `logger.exception` diagnostics, and whether the
pump died on an uncaught exception. -/
structure PumpResult where
  infoLines : List String
  diagnostics : List String
  raised : Bool
deriving DecidableEq

/-- Model of `_handle_logs`: iterate over the stream of chunks.  A
falsy chunk is skipped; a nested generator fans out with no exception
handling, so a bad inner element kills the pump; any other chunk is
decoded under try/except, one diagnostic per failing chunk. -/
def handleLogs : List LogVal → PumpResult
  | [] => ⟨[], [], false⟩
  | v :: rest =>
    if isFalsy v then handleLogs rest
    else
      match v with
      | .gen inner =>
        let p := pumpNested inner
        if p.2 then ⟨p.1, [], true⟩
        else
          let r := handleLogs rest
          ⟨p.1 ++ r.infoLines, r.diagnostics, r.raised⟩
      | w =>
        match decodeTrim w with
        | some line =>
          let r := handleLogs rest
          ⟨line :: r.infoLines, r.diagnostics, r.raised⟩
        | none =>
          let r := handleLogs rest
          ⟨r.infoLines,
            ("Unable to print log of type " ++ typeName w) :: r.diagnostics,
            r.raised⟩

/-! ## The controller state machine

The mutable fields of a `LoadDockerNodes` instance, with observation
counters for the effects the claims talk about.  `futureRef` is
`_completed_future is not None`; `futureCancels` counts `cancel()`
calls on the future object created by `execute`; `taskRef` and
`taskCancelRequested` model `_started_task`; `container` is
`_container`, `containerStops` counts `stop()` calls; the executor
fields model the `ThreadPoolExecutor`.  Each step of the machine is
atomic, which is what the shutdown lock and the single-threaded event
loop provide in the source. -/

/-- A node description: substitution expressions for the package and
the executable, resolved later by `perform_substitutions`. -/
structure SandboxedNode (σ : Type) where
  package : σ
  node_executable : σ
deriving DecidableEq

/-- The mutable state of one `LoadDockerNodes` instance. -/
structure CtrlState where
  futureRef : Bool
  futureCancels : Nat
  taskRef : Bool
  taskCancelRequested : Bool
  container : Option Nat
  containerStops : Nat
  executorShutdown : Bool
  executorMaxWorkers : Nat
deriving DecidableEq

/-- Model of `LoadDockerNodes.__init__` (lines 57-78): all references
start empty and the worker pool is sized to the number of node
descriptions.  `ThreadPoolExecutor` raises `ValueError` when
`max_workers` is not positive, so an empty description list fails
construction; `Except.error` models that exception. -/
def initCtrl {σ : Type} (node_descriptions : List (SandboxedNode σ)) :
    Except String CtrlState :=
  if node_descriptions.length = 0 then
    Except.error "max_workers must be greater than 0"
  else
    Except.ok
      { futureRef := false, futureCancels := 0, taskRef := false,
        taskCancelRequested := false, container := none, containerStops := 0,
        executorShutdown := false,
        executorMaxWorkers := node_descriptions.length }

/-- Model of `execute` (lines 220-242): register the shutdown handler,
create the completion future (a fresh object, zero cancels) and
schedule the startup task. -/
def execute (s : CtrlState) : CtrlState :=
  { s with futureRef := true, futureCancels := 0,
           taskRef := true, taskCancelRequested := false }

/-- One exec issued inside the container, with the flags passed to
`exec_run` (line 144). -/
structure Launch where
  cmd : List String
  tty : Bool
  stream : Bool
deriving DecidableEq

/-- The loop body of `_load_nodes_in_docker` (lines 127-153): one
launch per description, command built by `_containerized_cmd` from the
resolved package and executable.  A `shlex` failure raises out of the
loop, abandoning the remaining descriptions; the Bool records that. -/
def launchNodes {σ : Type} (entrypoint : String) (resolve : σ → String) :
    List (SandboxedNode σ) → List Launch × Bool
  | [] => ([], false)
  | d :: ds =>
    match containerized_cmd entrypoint (resolve d.package) (resolve d.node_executable) with
    | some cmd =>
      let r := launchNodes entrypoint resolve ds
      (⟨cmd, true, true⟩ :: r.1, r.2)
    | none => ([], true)

/-- Result of `_load_nodes_in_docker`: the launches issued (each one
also schedules a `_handle_logs` worker on the pool), the number of
error logs, and whether an exception escaped. -/
structure LoadResult where
  launches : List Launch
  errorLogs : Nat
  raised : Bool
deriving DecidableEq

/-- Model of `_load_nodes_in_docker` (lines 117-153): with no active
container log one error and return with no launches; otherwise launch
every description. -/
def load_nodes_in_docker {σ : Type} (entrypoint : String) (resolve : σ → String)
    (descs : List (SandboxedNode σ)) (container : Option Nat) : LoadResult :=
  match container with
  | none => ⟨[], 1, false⟩
  | some _ =>
    let r := launchNodes entrypoint resolve descs
    ⟨r.1, 0, r.2⟩

/-- Number of `_handle_logs` workers handed to the pool: one
`run_in_executor` call per launch (line 150). -/
def workersSpawned (r : LoadResult) : Nat := r.launches.length

/-- Outcome of one run of the `_start_docker_nodes` coroutine. -/
structure StartupOutcome where
  state : CtrlState
  launches : List Launch
  warnLogs : Nat
  errorLogs : Nat
  raised : Bool
deriving DecidableEq

/-- Model of `_start_docker_nodes` (lines 178-214).  `pullOk` and
`startOk` say whether `images.pull` and `containers.run` succeed or
raise `ImageNotFound`.  A pull failure logs a warning and falls
through.  A start failure logs an error and, under the shutdown lock,
cancels and clears the completion future when it is still set, then
returns before any node launch.  On a successful start the container
handle is stored and every node is loaded. -/
def start_docker_nodes {σ : Type} (pullOk startOk : Bool) (entrypoint : String)
    (resolve : σ → String) (descs : List (SandboxedNode σ))
    (s : CtrlState) : StartupOutcome :=
  let warns := if pullOk then 0 else 1
  if startOk then
    let s1 := { s with container := some 0 }
    let r := load_nodes_in_docker entrypoint resolve descs s1.container
    ⟨s1, r.launches, warns, r.errorLogs, r.raised⟩
  else
    let s1 :=
      if s.futureRef then
        { s with futureCancels := s.futureCancels + 1, futureRef := false }
      else s
    ⟨s1, [], warns, 1, false⟩

/-- Model of `__on_shutdown` (lines 244-274), executed under the
shutdown lock.  `cancelRaises` says whether `Task.cancel()` raises
`CancelledError` back at this call site; only in that case does the
source clear `_started_task`.  When the completion future is still
set, the pool is shut down without waiting, the future is cancelled
and cleared, and — only inside that branch — a present container is
stopped and cleared. -/
def on_shutdown (cancelRaises : Bool) (s : CtrlState) : CtrlState :=
  let s1 :=
    if s.taskRef then
      { s with taskCancelRequested := true,
               taskRef := if cancelRaises then false else s.taskRef }
    else s
  if s1.futureRef then
    let s2 := { s1 with executorShutdown := true,
                        futureCancels := s1.futureCancels + 1,
                        futureRef := false }
    if s2.container.isSome then
      { s2 with containerStops := s2.containerStops + 1, container := none }
    else s2
  else s1

/-- One observable step of a sandbox lifecycle after `execute`: the
startup task body runs, or a shutdown notification arrives.  The
shutdown lock and the event loop serialize the two paths, so a
lifecycle is an arbitrary interleaving, that is a list of events. -/
inductive SandboxEvent where
  | startup (pullOk startOk : Bool) : SandboxEvent
  | shutdownEvt (cancelRaises : Bool) : SandboxEvent
deriving DecidableEq

/-- State reached after one event. -/
def stepEvent {σ : Type} (entrypoint : String) (resolve : σ → String)
    (descs : List (SandboxedNode σ)) (s : CtrlState) : SandboxEvent → CtrlState
  | .startup pullOk startOk =>
    (start_docker_nodes pullOk startOk entrypoint resolve descs s).state
  | .shutdownEvt cancelRaises => on_shutdown cancelRaises s

/-- State reached after a sequence of events. -/
def runEvents {σ : Type} (entrypoint : String) (resolve : σ → String)
    (descs : List (SandboxedNode σ)) (s : CtrlState)
    (events : List SandboxEvent) : CtrlState :=
  events.foldl (stepEvent entrypoint resolve descs) s

/-- The single-cancellation invariant: the future object created by
`execute` has been cancelled at most once, and not at all while the
reference to it is still set. -/
def cancelInv (s : CtrlState) : Prop :=
  s.futureCancels ≤ 1 ∧ (s.futureRef = true → s.futureCancels = 0)

/-- A state in which the completion future has already been cancelled
and cleared while a container is still running. -/
def clearedFutureState : CtrlState :=
  { futureRef := false, futureCancels := 1, taskRef := false,
    taskCancelRequested := true, container := some 0, containerStops := 0,
    executorShutdown := true, executorMaxWorkers := 1 }

/-! ## Theorems -/

/-- Helper: with a tokenizable entrypoint, the launch loop issues one
exec per description, in order, and no exception escapes. -/
theorem launchNodes_eq_map {σ : Type} (entrypoint : String) (resolve : σ → String)
    (toks : List String) (h : shlexSplit entrypoint = some toks) :
    ∀ descs : List (SandboxedNode σ),
      launchNodes entrypoint resolve descs
        = (descs.map (fun d =>
            { cmd := toks ++ ["ros2", "run", resolve d.package, resolve d.node_executable],
              tty := true, stream := true }), false)
  | [] => rfl
  | d :: ds => by
    simp [launchNodes, containerized_cmd, h,
      launchNodes_eq_map entrypoint resolve toks h ds]

/-- C1: when both pull and start succeed, every configured node is
executed with the command `shlex.split(entrypoint) ++ [ros2, run,
package, executable]`, and in particular entrypoint bash -c with
package demo_pkg and executable talker yields the six expected
tokens. -/
theorem C1_exec_command {σ : Type} (entrypoint : String) (resolve : σ → String)
    (descs : List (SandboxedNode σ)) (s : CtrlState) (toks : List String)
    (h : shlexSplit entrypoint = some toks) :
    (start_docker_nodes true true entrypoint resolve descs s).launches
        = descs.map (fun d =>
            { cmd := toks ++ ["ros2", "run", resolve d.package, resolve d.node_executable],
              tty := true, stream := true })
    ∧ containerized_cmd "bash -c" "demo_pkg" "talker"
        = some ["bash", "-c", "ros2", "run", "demo_pkg", "talker"] := by
  refine ⟨?_, by decide⟩
  simp [start_docker_nodes, load_nodes_in_docker,
    launchNodes_eq_map entrypoint resolve toks h descs]

/-- C1 witness: the example scenario from the specification. -/
theorem C1_exec_command_witness :
    (start_docker_nodes true true "bash -c" (fun x : String => x)
        [{ package := "demo_pkg", node_executable := "talker" }]
        (execute clearedFutureState)).launches
      = [{ cmd := ["bash", "-c", "ros2", "run", "demo_pkg", "talker"],
           tty := true, stream := true }] :=
  (C1_exec_command "bash -c" (fun x : String => x)
    [{ package := "demo_pkg", node_executable := "talker" }]
    (execute clearedFutureState) ["bash", "-c"] (by decide)).1

/-- C4: when `containers.run` raises `ImageNotFound` and the
completion future is still set, the future is cancelled exactly once
and cleared, one error is logged, and no node launch is attempted;
when start succeeds the future is untouched, so start failure is the
sole failure exit. -/
theorem C4_start_failure {σ : Type} (pullOk : Bool) (entrypoint : String)
    (resolve : σ → String) (descs : List (SandboxedNode σ)) (s : CtrlState)
    (h : s.futureRef = true) :
    (start_docker_nodes pullOk false entrypoint resolve descs s).state.futureCancels
        = s.futureCancels + 1
    ∧ (start_docker_nodes pullOk false entrypoint resolve descs s).state.futureRef = false
    ∧ (start_docker_nodes pullOk false entrypoint resolve descs s).launches = []
    ∧ (start_docker_nodes pullOk false entrypoint resolve descs s).errorLogs = 1
    ∧ (start_docker_nodes pullOk true entrypoint resolve descs s).state.futureCancels
        = s.futureCancels
    ∧ (start_docker_nodes pullOk true entrypoint resolve descs s).state.futureRef
        = s.futureRef := by
  simp [start_docker_nodes, h]

/-- C4 witness: a concrete failing start with the future set. -/
theorem C4_start_failure_witness :
    (start_docker_nodes true false "bash -c" (fun x : String => x)
        [{ package := "demo_pkg", node_executable := "talker" }]
        (execute clearedFutureState)).state.futureCancels
      = (execute clearedFutureState).futureCancels + 1
    ∧ (start_docker_nodes true false "bash -c" (fun x : String => x)
        [{ package := "demo_pkg", node_executable := "talker" }]
        (execute clearedFutureState)).launches = [] := by
  have h := C4_start_failure true "bash -c" (fun x : String => x)
    [{ package := "demo_pkg", node_executable := "talker" }]
    (execute clearedFutureState) (by decide)
  exact ⟨h.1, h.2.2.1⟩

/-- C5: a pull failure followed by a successful start reaches the same
state and the same launches as a successful pull, logs one warning,
and performs no cancellation. -/
theorem C5_pull_swallowed {σ : Type} (entrypoint : String) (resolve : σ → String)
    (descs : List (SandboxedNode σ)) (s : CtrlState) :
    (start_docker_nodes false true entrypoint resolve descs s).state
        = (start_docker_nodes true true entrypoint resolve descs s).state
    ∧ (start_docker_nodes false true entrypoint resolve descs s).launches
        = (start_docker_nodes true true entrypoint resolve descs s).launches
    ∧ (start_docker_nodes false true entrypoint resolve descs s).warnLogs = 1
    ∧ (start_docker_nodes true true entrypoint resolve descs s).warnLogs = 0
    ∧ (start_docker_nodes false true entrypoint resolve descs s).state.futureCancels
        = s.futureCancels := by
  simp [start_docker_nodes]

/-- C9: running the node-launch step with no active container logs
exactly one error, launches nothing and schedules no log worker. -/
theorem C9_no_container {σ : Type} (entrypoint : String) (resolve : σ → String)
    (descs : List (SandboxedNode σ)) :
    load_nodes_in_docker entrypoint resolve descs none
        = { launches := [], errorLogs := 1, raised := false }
    ∧ workersSpawned (load_nodes_in_docker entrypoint resolve descs none) = 0 := by
  exact ⟨rfl, rfl⟩

/-- C10: construction sizes the worker pool to the number of node
descriptions and `ThreadPoolExecutor` rejects a pool of size zero, so
every successfully constructed instance has at least one node. -/
theorem C10_nonempty_nodes {σ : Type} (descs : List (SandboxedNode σ)) (s : CtrlState)
    (h : initCtrl descs = Except.ok s) :
    descs ≠ []
    ∧ s.executorMaxWorkers = descs.length
    ∧ 1 ≤ s.executorMaxWorkers
    ∧ initCtrl ([] : List (SandboxedNode String))
        = Except.error "max_workers must be greater than 0" := by
  by_cases hlen : descs.length = 0
  · simp [initCtrl, hlen] at h
  · have hs : s.executorMaxWorkers = descs.length := by
      simp [initCtrl, hlen] at h
      exact (congrArg CtrlState.executorMaxWorkers h.symm)
    refine ⟨fun hnil => hlen (by simp [hnil]), hs, ?_, rfl⟩
    omega

/-- C10 witness: a one-node construction succeeds and has a pool of
size one. -/
theorem C10_nonempty_nodes_witness :
    ([{ package := "demo_pkg", node_executable := "talker" }]
        : List (SandboxedNode String)) ≠ [] := by
  have h := C10_nonempty_nodes
    ([{ package := "demo_pkg", node_executable := "talker" }] : List (SandboxedNode String))
    { futureRef := false, futureCancels := 0, taskRef := false,
      taskCancelRequested := false, container := none, containerStops := 0,
      executorShutdown := false, executorMaxWorkers := 1 }
    rfl
  exact h.1

/-- C2 counterexample: when the shutdown handler runs with a container
present but the completion future already cleared, the container is
neither stopped nor cleared, because the container step is nested
inside the future branch (lines 265-272). -/
theorem C2_counterexample :
    clearedFutureState.container = some 0
    ∧ (on_shutdown false clearedFutureState).container = some 0
    ∧ (on_shutdown false clearedFutureState).containerStops = 0 := by
  decide

/-- C2 amended: the container step runs only inside the branch where
the completion future was still set; in that case a present container
is stopped exactly once and the reference cleared. -/
theorem C2_stop_under_future (cancelRaises : Bool) (s : CtrlState) (handle : Nat)
    (hf : s.futureRef = true) (hc : s.container = some handle) :
    (on_shutdown cancelRaises s).container = none
    ∧ (on_shutdown cancelRaises s).containerStops = s.containerStops + 1 := by
  cases s
  simp only at hf hc
  subst hf hc
  simp [on_shutdown]
  split <;> simp

/-- C2 witness: a concrete shutdown with future and container both
present. -/
theorem C2_stop_under_future_witness :
    (on_shutdown false (execute clearedFutureState)).container = none
    ∧ (on_shutdown false (execute clearedFutureState)).containerStops
        = (execute clearedFutureState).containerStops + 1 :=
  C2_stop_under_future false (execute clearedFutureState) 0 rfl rfl

/-- C7: the shutdown handler is idempotent; a second invocation leaves
the whole controller state, including the task reference, the future,
the container and the worker pool, exactly where the first one left
it. -/
theorem C7_shutdown_idempotent (cancelRaises : Bool) (s : CtrlState) :
    on_shutdown cancelRaises (on_shutdown cancelRaises s)
      = on_shutdown cancelRaises s := by
  cases s with
  | mk f fc t tc c cs ex mw =>
    cases f <;> cases t <;> cases cancelRaises <;> cases c <;>
      simp [on_shutdown]

/-- Helper: every lifecycle event preserves the single-cancellation
invariant. -/
theorem cancelInv_step {σ : Type} (entrypoint : String) (resolve : σ → String)
    (descs : List (SandboxedNode σ)) (s : CtrlState) (e : SandboxEvent)
    (hs : cancelInv s) :
    cancelInv (stepEvent entrypoint resolve descs s e) := by
  obtain ⟨h1, h2⟩ := hs
  cases e with
  | startup pullOk startOk =>
    cases s with
    | mk f fc t tc c cs ex mw =>
      simp only at h1 h2
      cases f <;> cases startOk <;>
        simp_all [stepEvent, start_docker_nodes, cancelInv]
  | shutdownEvt cancelRaises =>
    cases s with
    | mk f fc t tc c cs ex mw =>
      simp only at h1 h2
      cases f <;> cases t <;> cases cancelRaises <;> cases c <;>
        simp_all [stepEvent, on_shutdown, cancelInv]

/-- Helper: the invariant is preserved along any event sequence. -/
theorem cancelInv_run {σ : Type} (entrypoint : String) (resolve : σ → String)
    (descs : List (SandboxedNode σ)) :
    ∀ (events : List SandboxEvent) (s : CtrlState), cancelInv s →
      cancelInv (runEvents entrypoint resolve descs s events)
  | [], _, hs => hs
  | e :: es, s, hs =>
    cancelInv_run entrypoint resolve descs es _
      (cancelInv_step entrypoint resolve descs s e hs)

/-- C8: along any interleaving of startup runs and shutdown
notifications after one `execute`, the completion future created by
`execute` is cancelled at most once. -/
theorem C8_cancel_at_most_once {σ : Type} (entrypoint : String)
    (resolve : σ → String) (descs : List (SandboxedNode σ)) (s0 : CtrlState)
    (events : List SandboxEvent) :
    (runEvents entrypoint resolve descs (execute s0) events).futureCancels ≤ 1 :=
  (cancelInv_run entrypoint resolve descs events (execute s0)
    ⟨Nat.zero_le 1, fun _ => rfl⟩).1

/-- C3 counterexample: a decode failure on an element inside a nested
sequence is not caught: the pump dies with no diagnostic and the
following chunk is never forwarded. -/
theorem C3_counterexample :
    (handleLogs [.gen [.bytes [255]], .bytes [104, 105]]).raised = true
    ∧ (handleLogs [.gen [.bytes [255]], .bytes [104, 105]]).diagnostics = []
    ∧ (handleLogs [.gen [.bytes [255]], .bytes [104, 105]]).infoLines = [] := by
  decide

/-- C3 amended: a decode or type error on a plain chunk is caught and
logged as exactly one diagnostic naming the runtime type, and the pump
continues with the rest of the stream; an error on an element inside a
nested sequence is not caught and terminates the pump. -/
theorem C3_plain_error_recovered (bs : List Nat) (rest : List LogVal)
    (hne : bs ≠ []) (hdec : utf8Decode bs = none) :
    handleLogs (.bytes bs :: rest)
        = { infoLines := (handleLogs rest).infoLines,
            diagnostics :=
              ("Unable to print log of type bytes") :: (handleLogs rest).diagnostics,
            raised := (handleLogs rest).raised }
    ∧ handleLogs (.other :: rest)
        = { infoLines := (handleLogs rest).infoLines,
            diagnostics :=
              ("Unable to print log of type object") :: (handleLogs rest).diagnostics,
            raised := (handleLogs rest).raised }
    ∧ (∀ inner : List LogVal, (pumpNested inner).2 = true →
        handleLogs (.gen inner :: rest)
          = { infoLines := (pumpNested inner).1, diagnostics := [], raised := true }) := by
  refine ⟨?_, ?_, ?_⟩
  · cases bs with
    | nil => exact absurd rfl hne
    | cons b bs2 => simp [handleLogs, isFalsy, decodeTrim, typeName, hdec]
  · simp [handleLogs, isFalsy, decodeTrim, typeName]
  · intro inner hbad
    simp [handleLogs, isFalsy, hbad]

/-- C3 witness: a concrete undecodable plain chunk followed by a good
chunk. -/
theorem C3_plain_error_recovered_witness :
    handleLogs [.bytes [255], .bytes [104, 105]]
      = { infoLines := (handleLogs [LogVal.bytes [104, 105]]).infoLines,
          diagnostics :=
            ("Unable to print log of type bytes")
              :: (handleLogs [LogVal.bytes [104, 105]]).diagnostics,
          raised := (handleLogs [LogVal.bytes [104, 105]]).raised } :=
  (C3_plain_error_recovered [255] [LogVal.bytes [104, 105]]
    (by decide) (by decide)).1

/-- Helper: when every element of a nested sequence decodes, the inner
loop forwards one line per element and no exception escapes. -/
theorem pumpNested_all_ok (inner : List LogVal)
    (h : ∀ v ∈ inner, (decodeTrim v).isSome) :
    pumpNested inner = (inner.map (fun v => (decodeTrim v).getD ""), false) := by
  induction inner with
  | nil => rfl
  | cons v vs ih =>
    have hv := h v (by simp)
    obtain ⟨line, hline⟩ := Option.isSome_iff_exists.mp hv
    simp [pumpNested, hline, ih (fun w hw => h w (by simp [hw]))]

/-- C6: a falsy chunk forwards nothing; a nested sequence whose
elements all decode fans out to exactly one decoded, trimmed line per
element; a plain decodable chunk forwards exactly one decoded, trimmed
line. -/
theorem C6_pump_shapes (inner : List LogVal) (bs : List Nat) (cs : List Char)
    (rest : List LogVal)
    (hinner : ∀ v ∈ inner, (decodeTrim v).isSome)
    (hbs : bs ≠ []) (hdec : utf8Decode bs = some cs) :
    handleLogs (.pynone :: rest) = handleLogs rest
    ∧ handleLogs (.bytes [] :: rest) = handleLogs rest
    ∧ handleLogs (.gen inner :: rest)
        = { infoLines :=
              inner.map (fun v => (decodeTrim v).getD "") ++ (handleLogs rest).infoLines,
            diagnostics := (handleLogs rest).diagnostics,
            raised := (handleLogs rest).raised }
    ∧ (inner.map (fun v => (decodeTrim v).getD "")).length = inner.length
    ∧ handleLogs (.bytes bs :: rest)
        = { infoLines := String.mk (pyStrip cs) :: (handleLogs rest).infoLines,
            diagnostics := (handleLogs rest).diagnostics,
            raised := (handleLogs rest).raised } := by
  refine ⟨rfl, rfl, ?_, by simp, ?_⟩
  · simp [handleLogs, isFalsy, pumpNested_all_ok inner hinner]
  · cases bs with
    | nil => exact absurd rfl hbs
    | cons b bs2 => simp [handleLogs, isFalsy, decodeTrim, hdec]

/-- C6 witness: one falsy, one nested and one plain chunk with
concrete bytes. -/
theorem C6_pump_shapes_witness :
    handleLogs [LogVal.pynone] = handleLogs []
    ∧ (handleLogs [LogVal.gen [LogVal.bytes [104, 105]]]).infoLines = ["hi"]
    ∧ (handleLogs [LogVal.bytes [32, 104, 105, 10]]).infoLines = ["hi"] := by
  have h := C6_pump_shapes [LogVal.bytes [104, 105]] [32, 104, 105, 10]
    [' ', 'h', 'i', '\n'] [] (by decide) (by decide) (by decide)
  refine ⟨h.1, ?_, ?_⟩
  · rw [h.2.2.1]
    decide
  · rw [h.2.2.2.2]
    decide

end LoadDockerNodes
